import Mathlib

/-!
Verification of the xeus-r request-to-runtime bridge
(`src/src/xinterpreter.cpp`) against its natural-language specification.

The bridge is embedded shallowly: R values (SEXPs) crossed by the bridge are
a small inductive type, the Rinternals accessors used by the bridge are total
Lean functions over it, and each request handler is translated into a pure
Lean function.  Handlers whose behaviour is a sequence of side effects
(PROTECT/UNPROTECT, stream publications, terminal replies) are translated
into trace-producing functions returning a list of actions in emission
order.  Calls into the companion library (hera) and into the R parser are
external collaborators and appear as function parameters.
-/

namespace XeusR

/-- A model of the R values (SEXPs) the bridge moves across the boundary:
character vectors, integer vectors, logical vectors, generic vectors
(VECSXP) carrying a class attribute, and R_NilValue. -/
inductive SEXP where
  | nilValue : SEXP
  | strVec (elems : List String) : SEXP
  | intVec (elems : List Int) : SEXP
  | lglVec (elems : List Bool) : SEXP
  | vecList (classes : List String) (elems : List SEXP) : SEXP

/-- XLENGTH: the length of a vector SEXP. -/
def XLENGTH : SEXP → Nat
  | SEXP.nilValue => 0
  | SEXP.strVec es => es.length
  | SEXP.intVec es => es.length
  | SEXP.lglVec es => es.length
  | SEXP.vecList _ es => es.length

/-- VECTOR_ELT: element i of a generic vector. -/
def VECTOR_ELT : SEXP → Nat → SEXP
  | SEXP.vecList _ es, i => es.getD i SEXP.nilValue
  | _, _ => SEXP.nilValue

/-- CHAR(STRING_ELT(x, i)): element i of a character vector, as a string. -/
def CHAR_STRING_ELT : SEXP → Nat → String
  | SEXP.strVec es, i => es.getD i ""
  | _, _ => ""

/-- INTEGER_ELT: element i of an integer vector. -/
def INTEGER_ELT : SEXP → Nat → Int
  | SEXP.intVec es, i => es.getD i 0
  | _, _ => 0

/-- LOGICAL_ELT: element i of a logical vector. -/
def LOGICAL_ELT : SEXP → Nat → Bool
  | SEXP.lglVec es, i => es.getD i false
  | _, _ => false

/-- Rf_inherits: whether the class attribute of x contains cls. -/
def Rf_inherits (x : SEXP) (cls : String) : Bool :=
  match x with
  | SEXP.vecList classes _ => classes.contains cls
  | _ => false

/-- A structured document produced by nlohmann::json::parse, represented by
the source text it was parsed from (the claims checked here depend on which
payload is decoded and where it flows, not on JSON grammar). -/
structure JsonDoc where
  raw : String
deriving DecidableEq, Repr

/-- nl::json::parse as used by the bridge. -/
def nl_json_parse (s : String) : JsonDoc := JsonDoc.mk s

/-- A terminal protocol reply handed to the send-reply callback of
execute_request_impl: xeus::create_error_reply or
xeus::create_successful_reply. -/
inductive Reply where
  | errorReply (evalue ename : String) (traceBack : List String)
  | successfulReply
deriving DecidableEq, Repr

/-- xeus::execute_request_config: the fields read by the bridge. -/
structure ExecuteRequestConfig where
  silent : Bool
  store_history : Bool
deriving DecidableEq, Repr

/-- One observable action of execute_request_impl, in emission order. -/
inductive Action where
  | protect
  | unprotect (n : Nat)
  | storeHistory (session : Nat) (executionCount : Int) (code : String)
  | publishExecutionError (evalue ename : String) (traceBack : List String)
  | publishExecutionResult (executionCount : Int) (data metadata : JsonDoc)
  | sendReply (r : Reply)
deriving DecidableEq, Repr

/-- interpreter::execute_request_impl, as the trace of actions it performs.
The companion-library entry point `execute` is the parameter
`invoke_hera_execute`, receiving the code, the execution counter and the
silent flag exactly as the C++ passes them.  Note the source has no early
return after sending the error reply: the error branch falls through to the
final UNPROTECT(3) and the success reply. -/
def execute_request_impl (execution_count : Int) (code : String)
    (config : ExecuteRequestConfig)
    (invoke_hera_execute : String → Int → Bool → SEXP) : List Action :=
  (if config.store_history
    then [Action.storeHistory 0 execution_count code]
    else [])
  ++ [Action.protect, Action.protect, Action.protect]
  ++ (let result := invoke_hera_execute code execution_count config.silent
      (if Rf_inherits result "error_reply" then
        let evalue := CHAR_STRING_ELT (VECTOR_ELT result 0) 0
        let ename := CHAR_STRING_ELT (VECTOR_ELT result 1) 0
        let trace_back :=
          if XLENGTH result > 2 then
            let trace_back_ := VECTOR_ELT result 2
            (List.range (XLENGTH trace_back_)).map
              (fun i => CHAR_STRING_ELT trace_back_ i)
          else []
        [Action.publishExecutionError evalue ename trace_back,
         Action.unprotect 3,
         Action.sendReply (Reply.errorReply evalue ename trace_back)]
      else [])
      ++ (if Rf_inherits result "execution_result" then
            let data := nl_json_parse (CHAR_STRING_ELT (VECTOR_ELT result 0) 0)
            let metadata := nl_json_parse (CHAR_STRING_ELT (VECTOR_ELT result 1) 0)
            [Action.publishExecutionResult execution_count data metadata]
          else [])
      ++ [Action.unprotect 3, Action.sendReply Reply.successfulReply])

/-- How many terminal replies a trace hands to the callback. -/
def countReplies (acts : List Action) : Nat :=
  acts.countP (fun a => match a with
    | Action.sendReply _ => true
    | _ => false)

/-- How many PROTECT acquisitions a trace performs. -/
def protectCount (acts : List Action) : Nat :=
  acts.countP (fun a => match a with
    | Action.protect => true
    | _ => false)

/-- The total number of protections released by the UNPROTECT calls of a
trace. -/
def unprotectTotal (acts : List Action) : Nat :=
  (acts.map (fun a => match a with
    | Action.unprotect n => n
    | _ => 0)).sum

/-- A native result classed error_reply, shaped as hera returns it:
list(character(evalue), character(ename), character vector of trace lines). -/
def error_reply_sexp (evalue ename : String) (tb : List String) : SEXP :=
  SEXP.vecList ["error_reply"]
    [SEXP.strVec [evalue], SEXP.strVec [ename], SEXP.strVec tb]

/-- A concrete errored execution: hera returns an error_reply for the
evaluated code. -/
def executeErrorTrace : List Action :=
  execute_request_impl 1 "stop(boom)" (ExecuteRequestConfig.mk false false)
    (fun _ _ _ => error_reply_sexp "boom" "simpleError" ["Error: boom"])

/-- The ParseStatus enumeration of R_ext/Parse.h. -/
inductive ParseStatus where
  | PARSE_NULL
  | PARSE_OK
  | PARSE_INCOMPLETE
  | PARSE_ERROR
  | PARSE_EOF
deriving DecidableEq, Repr

/-- The outcome of running R_ParseVector on a source fragment under
R_tryCatchError: either it returns with a ParseStatus, or it raises a native
R error (which transfers control to the handler). -/
inductive ParseOutcome where
  | returned (status : ParseStatus)
  | raisedError
deriving DecidableEq, Repr

/-- xeus::create_is_complete_reply. -/
structure IsCompleteReply where
  status : String
  indent : String
deriving DecidableEq, Repr

/-- xeus::create_is_complete_reply as a constructor. -/
def create_is_complete_reply (status indent : String) : IsCompleteReply :=
  IsCompleteReply.mk status indent

/-- interpreter::is_complete_request_impl.  The protected string vector
`code` starts as the source text and is overwritten with the classification
either by the R_tryCatchError body (switching on the ParseStatus) or by the
error handler (when R_ParseVector raises); the reply carries the final
string.  R_ParseVector is the external parser, passed as a parameter. -/
def is_complete_request_impl (code_ : String)
    (R_ParseVector : String → ParseOutcome) : IsCompleteReply :=
  let code :=
    match R_ParseVector code_ with
    | ParseOutcome.returned ParseStatus.PARSE_INCOMPLETE => "incomplete"
    | ParseOutcome.returned ParseStatus.PARSE_ERROR => "invalid"
    | ParseOutcome.returned _ => "complete"
    | ParseOutcome.raisedError => "invalid"
  create_is_complete_reply code ""

/-- json_from_character_vector: the JSON array of strings decoded from a
native character vector, element i copied from CHAR(STRING_ELT(x, i)). -/
def json_from_character_vector (x : SEXP) : List String :=
  (List.range (XLENGTH x)).map (fun i => CHAR_STRING_ELT x i)

/-- The effect of one console write callback. -/
inductive ConsoleEffect where
  | publishStream (name : String) (text : List Char)
  | appendCapture (text : List Char)
  | discarded
deriving DecidableEq, Repr

/-- WriteConsoleEx (publish mode): the buffer is copied by its exact length
and forwarded as a stream event named by the channel tag. -/
def WriteConsoleEx (buf : List Char) (buflen : Nat) (otype : Int) :
    ConsoleEffect :=
  let output := buf.take buflen
  if otype = 1 then ConsoleEffect.publishStream "stderr" output
  else ConsoleEffect.publishStream "stdout" output

/-- capture_WriteConsoleEx (capture mode): channel 1 is discarded, any other
channel is appended to the capture buffer. -/
def capture_WriteConsoleEx (buf : List Char) (buflen : Nat) (otype : Int) :
    ConsoleEffect :=
  let output := buf.take buflen
  if otype = 1 then ConsoleEffect.discarded
  else ConsoleEffect.appendCapture output

/-- ReadConsole: the client response is truncated to the buffer length, the
truncation is copied byte by byte, a line break is written just after it,
and 1 is returned unconditionally (the source carries a TODO to return 0 on
a failed input request).  The first component lists every (index, byte)
write into the caller-provided buffer; the second is the return code. -/
def ReadConsole (res : String) (length : Nat) : List (Nat × Char) × Int :=
  let size := min res.length length
  let writes :=
    (List.range size).map (fun i => (i, res.toList.getD i ' '))
    ++ [(size, Char.ofNat 10)]
  (writes, 1)

/-- One observable action of configure_impl. -/
inductive ConfigAction where
  | protect
  | unprotect (n : Nat)
  | fatalStartupError
deriving DecidableEq, Repr

/-- interpreter::configure_impl, as the trace of actions it performs.
`require_hera_ok` is LOGICAL_ELT(out, 0) of evaluating
require(hera, quietly = TRUE).  The failure branch of the source holds only
a TODO comment (suicide the kernel because hera is not installed) and takes
no action. -/
def configure_impl (require_hera_ok : Bool) : List ConfigAction :=
  [ConfigAction.protect, ConfigAction.protect, ConfigAction.protect]
  ++ (if require_hera_ok = false then
        ([] : List ConfigAction)
      else [])
  ++ [ConfigAction.unprotect 3]

/-- xeus::create_inspect_reply: found flag plus optional decoded payload. -/
inductive InspectReply where
  | reply (found : Bool) (data : Option JsonDoc)
deriving DecidableEq, Repr

/-- xeus::create_inspect_reply as a constructor. -/
def create_inspect_reply (found : Bool) (data : Option JsonDoc) :
    InspectReply :=
  InspectReply.reply found data

/-- interpreter::inspect_request_impl.  The companion-library entry point
`inspect` is the parameter; the found flag is LOGICAL_ELT of element 0 of
the result; when it is false the negative reply is returned immediately,
otherwise element 1 is parsed as structured data and carried by the positive
reply. -/
def inspect_request_impl (code : String) (cursor_pos : Int)
    (invoke_hera_inspect : String → Int → SEXP) : InspectReply :=
  let result := invoke_hera_inspect code cursor_pos
  let found := LOGICAL_ELT (VECTOR_ELT result 0) 0
  if found = false then
    create_inspect_reply false none
  else
    let data := nl_json_parse (CHAR_STRING_ELT (VECTOR_ELT result 1) 0)
    create_inspect_reply found (some data)

/-- Modelled from the spec: the contract of the companion library (hera)
execute entry point in silent mode.  The hera R package is not under src/;
per the spec, for silent requests the guest semantics produce no visible
execution result, so the native result returned for silent = true is never
classed execution_result even when the evaluation succeeds with a visible
value. -/
def hera_silent_contract (invoke_hera_execute : String → Int → Bool → SEXP) :
    Prop :=
  ∀ (code : String) (count : Int),
    Rf_inherits (invoke_hera_execute code count true) "execution_result" = false

/-- A demonstration companion library obeying hera_silent_contract: it
returns an execution_result only for non-silent requests. -/
def hera_demo (_code : String) (_count : Int) (silent : Bool) : SEXP :=
  if silent then SEXP.nilValue
  else SEXP.vecList ["execution_result"]
    [SEXP.strVec ["\x7b\x7d"], SEXP.strVec ["\x7b\x7d"]]

/-- Reading back a list by getD over its range of positions is the
identity. -/
theorem map_getD_range (l : List String) (d : String) :
    (List.range l.length).map (fun i => l.getD i d) = l := by
  induction l with
  | nil => rfl
  | cons a t ih =>
    rw [List.length_cons, List.range_succ_eq_map, List.map_cons,
      List.map_map]
    refine congrArg (List.cons a) ?_
    have h : List.map ((fun i => (a :: t).getD i d) ∘ Nat.succ)
          (List.range t.length)
        = List.map (fun i => t.getD i d) (List.range t.length) := by
      apply List.map_congr_left
      intro i _
      simp [Function.comp, List.getD_cons_succ]
    rw [h, ih]

/-- The trace of execute_request_impl when the companion library returns an
error_reply with fields (evalue, ename, tb): because the error branch does
not return, the trace goes on to the second UNPROTECT(3) and the success
reply. -/
theorem execute_error_trace_eq (ec : Int) (code : String)
    (config : ExecuteRequestConfig) (evalue ename : String)
    (tb : List String) :
    execute_request_impl ec code config
        (fun _ _ _ => error_reply_sexp evalue ename tb)
      = (if config.store_history then [Action.storeHistory 0 ec code] else [])
        ++ [Action.protect, Action.protect, Action.protect,
            Action.publishExecutionError evalue ename tb,
            Action.unprotect 3,
            Action.sendReply (Reply.errorReply evalue ename tb),
            Action.unprotect 3,
            Action.sendReply Reply.successfulReply] := by
  unfold execute_request_impl error_reply_sexp
  simp [Rf_inherits, XLENGTH, VECTOR_ELT, CHAR_STRING_ELT]
  have h := map_getD_range tb ""
  simpa using h

/-- Claim C1: the spec requires exactly one terminal reply per request, even
when the native result of an Execute is an error_reply.  The code violates
this: on an error_reply the reply callback is invoked twice, once with the
error reply and once with the success reply, because the error branch of
execute_request_impl does not return. -/
theorem execute_error_reply_sends_two_replies :
    countReplies executeErrorTrace = 2 ∧
    Action.sendReply (Reply.errorReply "boom" "simpleError" ["Error: boom"])
      ∈ executeErrorTrace ∧
    Action.sendReply Reply.successfulReply ∈ executeErrorTrace := by
  decide

/-- Claim C2: the spec requires every handler to release exactly as many
protections as it acquires on every exit path.  The code violates this on
the error_reply path of execute_request_impl: it acquires 3 protections but
runs UNPROTECT(3) twice, releasing 6. -/
theorem execute_error_reply_unbalanced_protect :
    protectCount executeErrorTrace = 3 ∧
    unprotectTotal executeErrorTrace = 6 := by
  decide

/-- Claim C3: the completeness classifier returns incomplete when the parser
reports it needs more tokens, invalid on a syntax error, complete when the
parser succeeds, and invalid (never a propagated crash) when the parser
raises a native exception; the reply always carries exactly one of the
three tags and an empty hint. -/
theorem is_complete_classifies (code_ : String)
    (R_ParseVector : String → ParseOutcome) :
    (R_ParseVector code_ = ParseOutcome.returned ParseStatus.PARSE_INCOMPLETE →
      is_complete_request_impl code_ R_ParseVector
        = create_is_complete_reply "incomplete" "") ∧
    (R_ParseVector code_ = ParseOutcome.returned ParseStatus.PARSE_ERROR →
      is_complete_request_impl code_ R_ParseVector
        = create_is_complete_reply "invalid" "") ∧
    (R_ParseVector code_ = ParseOutcome.returned ParseStatus.PARSE_OK →
      is_complete_request_impl code_ R_ParseVector
        = create_is_complete_reply "complete" "") ∧
    (R_ParseVector code_ = ParseOutcome.raisedError →
      is_complete_request_impl code_ R_ParseVector
        = create_is_complete_reply "invalid" "") ∧
    ((is_complete_request_impl code_ R_ParseVector).status = "complete" ∨
     (is_complete_request_impl code_ R_ParseVector).status = "incomplete" ∨
     (is_complete_request_impl code_ R_ParseVector).status = "invalid") := by
  unfold is_complete_request_impl
  rcases h : R_ParseVector code_ with s | _
  · cases s <;> simp [h, create_is_complete_reply]
  · simp [h, create_is_complete_reply]

/-- Claim C4: the spec requires the input bridge never to write at or past
an index outside the caller-provided length bound.  The code violates this
when the client response is at least as long as the buffer: with response
"ab" and buffer length 2, ReadConsole writes the line break at index 2. -/
theorem read_console_writes_past_bound :
    ∃ w ∈ (ReadConsole "ab" 2).1, 2 ≤ w.1 := by
  decide

/-- Claim C5: the spec requires a fatal startup error when loading the
companion library reports failure.  The code violates this: when
require(hera) reports FALSE, configure_impl performs no fatal action and
silently continues (the failure branch holds only a TODO comment). -/
theorem configure_ignores_hera_failure :
    ConfigAction.fatalStartupError ∉ configure_impl false := by
  decide

/-- Claim C6: in publish mode a channel-1 write is forwarded as a stderr
stream event and any other channel as a stdout stream event; in capture
mode a channel-1 write is discarded and any other channel is appended to
the capture buffer; in both modes the copied text is exactly the first
buflen bytes of the buffer. -/
theorem console_redirector_routes (buf : List Char) (buflen : Nat)
    (otype : Int) :
    (WriteConsoleEx buf buflen 1
      = ConsoleEffect.publishStream "stderr" (buf.take buflen)) ∧
    (otype ≠ 1 → WriteConsoleEx buf buflen otype
      = ConsoleEffect.publishStream "stdout" (buf.take buflen)) ∧
    (capture_WriteConsoleEx buf buflen 1 = ConsoleEffect.discarded) ∧
    (otype ≠ 1 → capture_WriteConsoleEx buf buflen otype
      = ConsoleEffect.appendCapture (buf.take buflen)) := by
  refine ⟨rfl, ?_, rfl, ?_⟩ <;> intro h <;>
    simp [WriteConsoleEx, capture_WriteConsoleEx, h]

/-- Claim C7: decoding a native character vector of any length yields a
string sequence of the same length with the elements in the original order;
and a guest error with a non-empty native trace produces a stream error
event and an error reply whose trace list is exactly the native trace, same
length and order. -/
theorem codec_preserves_order_and_length (elems : List String)
    (evalue ename : String) (tb : List String) (ec : Int) (code : String)
    (config : ExecuteRequestConfig) :
    json_from_character_vector (SEXP.strVec elems) = elems ∧
    (json_from_character_vector (SEXP.strVec elems)).length = elems.length ∧
    (tb ≠ [] →
      Action.publishExecutionError evalue ename tb
        ∈ execute_request_impl ec code config
            (fun _ _ _ => error_reply_sexp evalue ename tb) ∧
      Action.sendReply (Reply.errorReply evalue ename tb)
        ∈ execute_request_impl ec code config
            (fun _ _ _ => error_reply_sexp evalue ename tb)) := by
  have hjson : json_from_character_vector (SEXP.strVec elems) = elems :=
    map_getD_range elems ""
  refine ⟨hjson, by rw [hjson], ?_⟩
  intro _
  rw [execute_error_trace_eq]
  constructor <;> simp

/-- Claim C8: for every Execute request with the silent flag set, no
execution-result stream event is published, even when the evaluation
succeeds with a visible value; the guest side of this (hera returns no
execution_result for silent requests) is the spec-modelled
hera_silent_contract. -/
theorem execute_silent_no_execution_result
    (invoke_hera_execute : String → Int → Bool → SEXP)
    (hc : hera_silent_contract invoke_hera_execute)
    (ec : Int) (code : String) (config : ExecuteRequestConfig)
    (hs : config.silent = true) (n : Int) (d m : JsonDoc) :
    Action.publishExecutionResult n d m
      ∉ execute_request_impl ec code config invoke_hera_execute := by
  intro hmem
  unfold execute_request_impl at hmem
  rw [hs] at hmem
  cases hsh : config.store_history <;>
  cases herr : Rf_inherits (invoke_hera_execute code ec true) "error_reply" <;>
  simp [hsh, herr, hc code ec] at hmem

/-- Witness for claim C8 at a concrete silent request against a concrete
companion library obeying the silent contract. -/
theorem execute_silent_no_execution_result_witness :
    Action.publishExecutionResult 1 (nl_json_parse "\x7b\x7d")
        (nl_json_parse "\x7b\x7d")
      ∉ execute_request_impl 1 "1 + 1" (ExecuteRequestConfig.mk true false)
          hera_demo :=
  execute_silent_no_execution_result hera_demo (fun _ _ => rfl) 1 "1 + 1"
    (ExecuteRequestConfig.mk true false) rfl 1 (nl_json_parse "\x7b\x7d")
    (nl_json_parse "\x7b\x7d")

/-- Claim C9: if the found flag of the native inspection result is false,
the bridge returns the negative inspection reply immediately with no
decoded payload; otherwise it parses element 1 of the result as structured
data and returns the positive reply carrying it. -/
theorem inspect_request_reply (invoke_hera_inspect : String → Int → SEXP)
    (code : String) (cursor_pos : Int) :
    (LOGICAL_ELT (VECTOR_ELT (invoke_hera_inspect code cursor_pos) 0) 0
        = false →
      inspect_request_impl code cursor_pos invoke_hera_inspect
        = create_inspect_reply false none) ∧
    (LOGICAL_ELT (VECTOR_ELT (invoke_hera_inspect code cursor_pos) 0) 0
        = true →
      inspect_request_impl code cursor_pos invoke_hera_inspect
        = create_inspect_reply true
            (some (nl_json_parse (CHAR_STRING_ELT
              (VECTOR_ELT (invoke_hera_inspect code cursor_pos) 1) 0)))) := by
  constructor <;> intro h <;>
    simp [inspect_request_impl, h, create_inspect_reply]

/-- Claim C10: ReadConsole reports success to the runtime unconditionally,
returning 1 for every client response and every buffer length; a failed
input request is never signaled as a read failure. -/
theorem read_console_reports_success (res : String) (length : Nat) :
    (ReadConsole res length).2 = 1 := rfl

end XeusR
